import Mathlib

/-!
Shallow embedding of the replicante-agents repository (Rust) for verification
of its natural-language specification.

Each definition mirrors one Rust item; the source file and symbol are named in
the doc comment. Ambient effects (clock, RNG, compile-time environment,
process-global state) become explicit parameters or explicit state threading.
Machine integers (i32, i64, u32) are modelled as Int/Nat with explicit range
checks where the source can overflow or reject out-of-range values.
-/

/-- Minimal JSON value model for `serde_json::Value` (opaque payloads: the code
under verification never inspects JSON structure, it only stores and moves
values, so any faithful value type works; this one is executable). -/
inductive Json where
  | null : Json
  | bool (b : Bool) : Json
  | num (n : Int) : Json
  | str (s : String) : Json
  | arr (elems : List Json) : Json
  | obj (fields : List (String × Json)) : Json

/-- `uuid::Uuid`, an opaque 128-bit identifier. -/
structure Uuid where
  val : Nat
deriving DecidableEq, Repr

/- ------------------------------------------------------------------ -/
/- src/base/src/actions/definition.rs                                  -/
/- ------------------------------------------------------------------ -/

/-- `ActionState` from src/base/src/actions/definition.rs (lines 114-125):
the state an action execution is currently in. The source enum has exactly
these three variants. -/
inductive ActionState where
  | Failed : ActionState
  | New : ActionState
  | Running : ActionState
deriving DecidableEq, Repr

/-- `ActionState::is_finished` from src/base/src/actions/definition.rs
(lines 127-135): `match self { Failed => true, _ => false }`. -/
def ActionState.is_finished : ActionState → Bool
  | ActionState.Failed => true
  | _ => false

/-- `ActionRequester` from src/base/src/actions/definition.rs (lines 107-111). -/
inductive ActionRequester where
  | Api : ActionRequester
deriving DecidableEq, Repr

/-- `ActionRecord` from src/base/src/actions/definition.rs (lines 60-88).
`created_ts` is a UTC instant, modelled as an opaque Nat; `headers` is a
`HashMap<String, String>` modelled as an association list. -/
structure ActionRecord where
  action : String
  agent_version : String
  args : Json
  created_ts : Nat
  headers : List (String × String)
  id : Uuid
  requester : ActionRequester
  state : ActionState
  state_payload : Option Json

/-- `ActionRecord::new` from src/base/src/actions/definition.rs (lines 90-104).
The source reads three ambient effects, passed here explicitly:
`env!("CARGO_PKG_VERSION")` as `agentVersion`, `Utc::now()` as `now`, and
`Uuid::new_v4()` as `freshId`. All other fields are set exactly as the
source sets them. -/
def ActionRecord.new (action : String) (args : Json) (requester : ActionRequester)
    (agentVersion : String) (now : Nat) (freshId : Uuid) : ActionRecord :=
  { action := action
    agent_version := agentVersion
    args := args
    created_ts := now
    headers := []
    id := freshId
    requester := requester
    state := ActionState.New
    state_payload := none }

/-- `ActionValidityError` from src/base/src/actions/definition.rs
(lines 141-145): the only variant is `InvalidArgs(String)`. -/
inductive ActionValidityError where
  | InvalidArgs (reason : String) : ActionValidityError

/-- `ActionValidity` alias from src/base/src/actions/definition.rs (line 138):
`Result<T, ActionValidityError>`. -/
def ActionValidity (T : Type := Unit) := Except ActionValidityError T

/-- `ActionValidityError::kind` from src/base/src/actions/definition.rs
(lines 147-153). -/
def ActionValidityError.kind : ActionValidityError → String
  | ActionValidityError.InvalidArgs _ => "InvalidArgs"

/-- The `Display` implementation derived from the
`#[fail(display = "invalid action arguments: {}", _0)]` attribute on
`ActionValidityError::InvalidArgs` (line 143). -/
def ActionValidityError.displayString : ActionValidityError → String
  | ActionValidityError.InvalidArgs reason => "invalid action arguments: " ++ reason

/-- `ActionValidityError::http_status` from src/base/src/actions/definition.rs
(lines 155-159): always `StatusCode::BAD_REQUEST` (400). -/
def ActionValidityError.http_status : ActionValidityError → Nat
  | _ => 400

/-- An HTTP response with a JSON object body, as built by `HttpResponse::build
(status).json(...)`. The body is the list of (field, string value) pairs. -/
structure HttpJsonResponse where
  status : Nat
  body : List (String × String)
deriving DecidableEq, Repr

/-- `ResponseError::error_response` for `ActionValidityError` from
src/base/src/actions/definition.rs (lines 161-168): builds a response with
`http_status` and the JSON body `{"error": self.to_string(), "kind": self.kind()}`. -/
def ActionValidityError.error_response (e : ActionValidityError) : HttpJsonResponse :=
  { status := e.http_status
    body := [("error", e.displayString), ("kind", e.kind)] }

/- ------------------------------------------------------------------ -/
/- src/libs/rust/sdk/src/error.rs                                      -/
/- ------------------------------------------------------------------ -/

/-- `ErrorKind` from src/libs/rust/sdk/src/error.rs (lines 76-170), with each
payload types of each variant mirrored (static str references and `String` both as
`String`). -/
inductive ErrorKind where
  | ActionAlreadyExists (id : String)
  | ActionDecode
  | ActionEncode
  | ActionNotAvailable (kind : String)
  | ConfigClash (opt : String)
  | ConfigLoad
  | ConfigOption (opt : String)
  | Connection (what : String) (address : String)
  | ExternalActionCheck (kind : String) (id : Uuid)
  | ExternalActionCheckDecode (id : Uuid)
  | ExternalActionCheckResult (id : Uuid) (stdout : String) (stderr : String)
  | ExternalActionExec (id : Uuid) (stdout : String) (stderr : String)
  | ExternalActionStart (kind : String) (id : Uuid)
  | FreeForm (message : String)
  | Initialisation (message : String)
  | InvalidStoreState (message : String)
  | Io (file : String)
  | PersistentCommit
  | PersistentMigrate
  | PersistentNoConnection
  | PersistentRead (what : String)
  | PersistentWrite (what : String)
  | PersistentOpen (path : String)
  | PersistentPool
  | ResponseDecode (what : String) (op : String)
  | ServiceOpFailed (op : String)
  | StoreOpFailed (op : String)
  | ThreadSpawn (thread : String)

/-- `ErrorKind::http_status` from src/libs/rust/sdk/src/error.rs
(lines 172-180): `ActionAlreadyExists` maps to CONFLICT (409), `ActionEncode`
and `ActionNotAvailable` map to BAD_REQUEST (400), everything else maps to
INTERNAL_SERVER_ERROR (500). -/
def ErrorKind.http_status : ErrorKind → Nat
  | ErrorKind.ActionAlreadyExists _ => 409
  | ErrorKind.ActionEncode => 400
  | ErrorKind.ActionNotAvailable _ => 400
  | _ => 500

/-- `ErrorKind::kind_name` from src/libs/rust/sdk/src/error.rs
(lines 182-214): every variant yields `Some(name)`. -/
def ErrorKind.kind_name : ErrorKind → Option String
  | ErrorKind.ActionAlreadyExists _ => some "ActionAlreadyExists"
  | ErrorKind.ActionDecode => some "ActionDecode"
  | ErrorKind.ActionEncode => some "ActionEncode"
  | ErrorKind.ActionNotAvailable _ => some "ActionNotAvailable"
  | ErrorKind.ConfigClash _ => some "ConfigClash"
  | ErrorKind.ConfigLoad => some "ConfigLoad"
  | ErrorKind.ConfigOption _ => some "ConfigOption"
  | ErrorKind.Connection _ _ => some "Connection"
  | ErrorKind.ExternalActionCheck _ _ => some "ExternalActionCheck"
  | ErrorKind.ExternalActionCheckDecode _ => some "ExternalActionCheckDecode"
  | ErrorKind.ExternalActionCheckResult _ _ _ => some "ExternalActionCheckResult"
  | ErrorKind.ExternalActionExec _ _ _ => some "ExternalActionExec"
  | ErrorKind.ExternalActionStart _ _ => some "ExternalActionStart"
  | ErrorKind.FreeForm _ => some "FreeForm"
  | ErrorKind.Initialisation _ => some "Initialisation"
  | ErrorKind.InvalidStoreState _ => some "InvalidStoreState"
  | ErrorKind.Io _ => some "Io"
  | ErrorKind.PersistentCommit => some "PersistentCommit"
  | ErrorKind.PersistentMigrate => some "PersistentMigrate"
  | ErrorKind.PersistentNoConnection => some "PersistentNoConnection"
  | ErrorKind.PersistentOpen _ => some "PersistentOpen"
  | ErrorKind.PersistentPool => some "PersistentPool"
  | ErrorKind.PersistentRead _ => some "PersistentRead"
  | ErrorKind.PersistentWrite _ => some "PersistentWrite"
  | ErrorKind.ResponseDecode _ _ => some "ResponseDecode"
  | ErrorKind.ServiceOpFailed _ => some "ServiceOpFailed"
  | ErrorKind.StoreOpFailed _ => some "StoreOpFailed"
  | ErrorKind.ThreadSpawn _ => some "ThreadSpawn"

/-- Whether an `ErrorKind` variant describes an external action start, check or
decode failure (the `ExternalAction*` family of src/libs/rust/sdk/src/error.rs,
lines 101-120). -/
def ErrorKind.isExternalAction : ErrorKind → Bool
  | ErrorKind.ExternalActionCheck _ _ => true
  | ErrorKind.ExternalActionCheckDecode _ => true
  | ErrorKind.ExternalActionCheckResult _ _ _ => true
  | ErrorKind.ExternalActionExec _ _ _ => true
  | ErrorKind.ExternalActionStart _ _ => true
  | _ => false

/-- The captured standard-out / standard-error payload carried by an
`ErrorKind` value, read off the variant payloads of
src/libs/rust/sdk/src/error.rs: only `ExternalActionCheckResult(_, out, err)`
and `ExternalActionExec(_, out, err)` carry the two captured output strings
(their display attributes label them "Standard out" / "Standard error");
every other variant carries identifiers or messages only. -/
def ErrorKind.capturedOutput : ErrorKind → Option (String × String)
  | ErrorKind.ExternalActionCheckResult _ stdout stderr => some (stdout, stderr)
  | ErrorKind.ExternalActionExec _ stdout stderr => some (stdout, stderr)
  | _ => none

/- ------------------------------------------------------------------ -/
/- src/base/src/config/api.rs                                          -/
/- ------------------------------------------------------------------ -/

/-- The process-global `DEFAULT_BIND: RwLock<Option<String>>` of
src/base/src/config/api.rs (lines 6-8), modelled as an explicit state value
threaded through the two functions that touch it. -/
def DefaultBindState := Option String

/-- `APIConfig::default_bind` from src/base/src/config/api.rs (lines 34-38):
reads the global, clones its content if set, otherwise falls back to
"127.0.0.1:8000". -/
def APIConfig.default_bind (state : DefaultBindState) : String :=
  match (Option.map (fun s => s) state : Option String) with
  | some s => s
  | none => "127.0.0.1:8000"

/-- `APIConfig::set_default_bind` from src/base/src/config/api.rs
(lines 49-55): panics (modelled as `Except.error` with the panic message) if
the global is already set, otherwise stores the supplied value. -/
def APIConfig.set_default_bind (state : DefaultBindState) (bind : String) :
    Except String DefaultBindState :=
  match state with
  | some _ => Except.error "Cannot override the default api.bind option more than once"
  | none => Except.ok (some bind)

/- ------------------------------------------------------------------ -/
/- Version ranges (src/agents/mongodb/src/version/v3_0/mod.rs)         -/
/- ------------------------------------------------------------------ -/

/-- A semantic version (major.minor.patch). Pre-release/build metadata never
appear in the registered ranges of this repository. -/
structure SemVersion where
  major : Nat
  minor : Nat
  patch : Nat
deriving DecidableEq, Repr

/-- Lexicographic strict order on semantic versions. -/
def SemVersion.lt (a b : SemVersion) : Bool :=
  if a.major < b.major then true
  else if b.major < a.major then false
  else if a.minor < b.minor then true
  else if b.minor < a.minor then false
  else a.patch < b.patch

/-- Modelled from the spec: a registered backend version range has an
inclusive lower bound and an exclusive upper bound (spec section 4.5). The
concrete matching logic lives in the external `semver` crate
(`VersionReq::matches`), outside the sources of this repository. -/
structure VersionReq where
  lower : SemVersion
  upper : SemVersion
deriving DecidableEq, Repr

/-- Modelled from the spec: a version matches a range when it is at least the
lower bound and strictly below the upper bound. -/
def VersionReq.matches (r : VersionReq) (v : SemVersion) : Bool :=
  !(SemVersion.lt v r.lower) && SemVersion.lt v r.upper

/-- `REPLICA_SET_RANGE` from src/agents/mongodb/src/version/v3_0/mod.rs
(lines 7-9): `VersionReq::parse(">=3.0.0, <3.2.0")`. -/
def REPLICA_SET_RANGE : VersionReq :=
  { lower := ⟨3, 0, 0⟩, upper := ⟨3, 2, 0⟩ }

/-- Modelled from the spec: the second registered range of the resolver
example in spec sections 4.5 and 8, `">=3.2.0, <4.0.0"`. -/
def NEXT_VERSION_RANGE : VersionReq :=
  { lower := ⟨3, 2, 0⟩, upper := ⟨4, 0, 0⟩ }

/- ------------------------------------------------------------------ -/
/- MongoDB v3.2 backend: two parallel implementations                  -/
/- src/mongodb/src/version/v3_2.rs and .../v3_2/{models,common}.rs     -/
/- ------------------------------------------------------------------ -/

/-- `ShardRole` from the `replicante_agent_models` dependency, as used by both
implementations (variants `Primary`, `Secondary`, `Unknown(String)`). -/
inductive ShardRole where
  | Primary : ShardRole
  | Secondary : ShardRole
  | Unknown (state : String) : ShardRole
deriving DecidableEq, Repr

/-- `bson::TimeStamp`: only the seconds field `t` (a u32) is read by this
code. -/
structure TimeStamp where
  t : Nat
deriving DecidableEq, Repr

/-- `RepliSetOptime` from src/mongodb/src/version/v3_2/models.rs
(lines 90-93) and the identical struct in src/mongodb/src/version/v3_2.rs. -/
structure RepliSetOptime where
  ts : TimeStamp
deriving DecidableEq, Repr

/-- `ReplSetStatusMember` from src/mongodb/src/version/v3_2/models.rs
(lines 74-81) and the identical struct in src/mongodb/src/version/v3_2.rs
(lines 201-208); `state` is an i32. -/
structure ReplSetStatusMember where
  is_self : Bool
  name : String
  optime : RepliSetOptime
  state : Int
deriving DecidableEq, Repr

/-- `ReplSetStatus` from src/mongodb/src/version/v3_2/models.rs (lines 16-22)
and the identical struct in src/mongodb/src/version/v3_2.rs (lines 142-148);
`my_state` is an i32. -/
structure ReplSetStatus where
  members : List ReplSetStatusMember
  my_state : Int
  set : String
deriving DecidableEq, Repr

/-- `CommitOffset::seconds` from the `replicante_agent_models` dependency used
by the instrumented path: an offset value tagged with the seconds unit. -/
inductive CommitOffset where
  | seconds (value : Int) : CommitOffset
deriving DecidableEq, Repr

/-- The seconds value carried by a `CommitOffset`. -/
def CommitOffset.secondsValue : CommitOffset → Int
  | CommitOffset.seconds v => v

namespace LegacyV32
/-!
The legacy direct implementation from src/mongodb/src/version/v3_2.rs.
Errors there are built from plain strings (`"...".into()`), modelled as
`Except String`.
-/

/-- Loop body of `ReplSetStatus::last_op` (v3_2.rs lines 152-159): first
member with `self == true` yields `optime.ts.t as i64`. -/
def lastOpAux : List ReplSetStatusMember → Except String Int
  | [] => Except.error "Unable to find self in members list"
  | m :: rest =>
    if m.is_self then Except.ok (Int.ofNat m.optime.ts.t) else lastOpAux rest

/-- `ReplSetStatus::last_op` from src/mongodb/src/version/v3_2.rs
(lines 152-159). -/
def last_op (status : ReplSetStatus) : Except String Int :=
  lastOpAux status.members

/-- Loop body of `ReplSetStatus::primary_optime` (v3_2.rs lines 172-179):
first member with `state == 1` yields `optime.ts.t as i64`. -/
def primaryOptimeAux : List ReplSetStatusMember → Except String Int
  | [] => Except.error "Unable to find primary node in members list"
  | m :: rest =>
    if m.state = 1 then Except.ok (Int.ofNat m.optime.ts.t) else primaryOptimeAux rest

/-- `ReplSetStatus::primary_optime` from src/mongodb/src/version/v3_2.rs
(lines 172-179). -/
def primary_optime (status : ReplSetStatus) : Except String Int :=
  primaryOptimeAux status.members

/-- `ReplSetStatus::role` from src/mongodb/src/version/v3_2.rs
(lines 182-196): match on `my_state`. -/
def role (my_state : Int) : Except String ShardRole :=
  if my_state = 0 then Except.ok (ShardRole.Unknown "STARTUP")
  else if my_state = 1 then Except.ok ShardRole.Primary
  else if my_state = 2 then Except.ok ShardRole.Secondary
  else if my_state = 3 then Except.ok (ShardRole.Unknown "RECOVERING")
  else if my_state = 5 then Except.ok (ShardRole.Unknown "STARTUP2")
  else if my_state = 6 then Except.ok (ShardRole.Unknown "UNKNOWN")
  else if my_state = 7 then Except.ok (ShardRole.Unknown "ARBITER")
  else if my_state = 8 then Except.ok (ShardRole.Unknown "DOWN")
  else if my_state = 9 then Except.ok (ShardRole.Unknown "ROLLBACK")
  else if my_state = 10 then Except.ok (ShardRole.Unknown "REMOVED")
  else Except.error "Unkown MongoDB node state"

/-- `Shard` as constructed by the legacy path
(`Shard::new(name, role, lag, last_op)` with `lag: Option<i64>` and
`last_op: i64`, v3_2.rs line 135). -/
structure Shard where
  name : String
  role : ShardRole
  lag : Option Int
  last_op : Int
deriving DecidableEq, Repr

/-- The pure core of `<ReplicaSet as Agent>::shards` from
src/mongodb/src/version/v3_2.rs (lines 119-137): the `replSetGetStatus`
response is the explicit input (the I/O and tracing around it carry no data
into the result), the result is the `Shards` list. On a failed lag
computation the error is logged and `lag` becomes `None`. -/
def shards (status : ReplSetStatus) : Except String (List Shard) :=
  match last_op status with
  | Except.error e => Except.error e
  | Except.ok lastOp =>
    match role status.my_state with
    | Except.error e => Except.error e
    | Except.ok role =>
      let lag : Option Int :=
        match role with
        | ShardRole.Primary => some 0
        | _ =>
          match primary_optime status with
          | Except.ok head => some (head - lastOp)
          | Except.error _ => none
      Except.ok [{ name := status.set, role := role, lag := lag, last_op := lastOp }]

end LegacyV32

/-- `ErrorKind` from the error module private to the MongoDB agent
(src/mongodb/src/error.rs, not under src/ here; variants and messages are
fixed by their uses and unit tests in src/mongodb/src/version/v3_2/models.rs:
`MembersNoSelf`, `MembersNoPrimary`, `UnsupportedSateId(i32)`). -/
inductive MongoErrorKind where
  | MembersNoSelf : MongoErrorKind
  | MembersNoPrimary : MongoErrorKind
  | UnsupportedSateId (state : Int) : MongoErrorKind
deriving DecidableEq, Repr

namespace ModelsV32
/-!
Models of the metrics-instrumented implementation from
src/mongodb/src/version/v3_2/models.rs and the pure core of
`CommonLogic::shards` from src/mongodb/src/version/v3_2/common.rs.
-/

/-- Loop body of `ReplSetStatus::last_op` (models.rs lines 26-33): first
member with `self == true` yields `i64::from(optime.ts.t)`. -/
def lastOpAux : List ReplSetStatusMember → Except MongoErrorKind Int
  | [] => Except.error MongoErrorKind.MembersNoSelf
  | m :: rest =>
    if m.is_self then Except.ok (Int.ofNat m.optime.ts.t) else lastOpAux rest

/-- `ReplSetStatus::last_op` from src/mongodb/src/version/v3_2/models.rs
(lines 26-33). -/
def last_op (status : ReplSetStatus) : Except MongoErrorKind Int :=
  lastOpAux status.members

/-- Loop body of `ReplSetStatus::primary_optime` (models.rs lines 46-53). -/
def primaryOptimeAux : List ReplSetStatusMember → Except MongoErrorKind Int
  | [] => Except.error MongoErrorKind.MembersNoPrimary
  | m :: rest =>
    if m.state = 1 then Except.ok (Int.ofNat m.optime.ts.t) else primaryOptimeAux rest

/-- `ReplSetStatus::primary_optime` from
src/mongodb/src/version/v3_2/models.rs (lines 46-53). -/
def primary_optime (status : ReplSetStatus) : Except MongoErrorKind Int :=
  primaryOptimeAux status.members

/-- `ReplSetStatus::role` from src/mongodb/src/version/v3_2/models.rs
(lines 56-70): the same match on `my_state` as the legacy path, with a
structured error for unsupported states. -/
def role (my_state : Int) : Except MongoErrorKind ShardRole :=
  if my_state = 0 then Except.ok (ShardRole.Unknown "STARTUP")
  else if my_state = 1 then Except.ok ShardRole.Primary
  else if my_state = 2 then Except.ok ShardRole.Secondary
  else if my_state = 3 then Except.ok (ShardRole.Unknown "RECOVERING")
  else if my_state = 5 then Except.ok (ShardRole.Unknown "STARTUP2")
  else if my_state = 6 then Except.ok (ShardRole.Unknown "UNKNOWN")
  else if my_state = 7 then Except.ok (ShardRole.Unknown "ARBITER")
  else if my_state = 8 then Except.ok (ShardRole.Unknown "DOWN")
  else if my_state = 9 then Except.ok (ShardRole.Unknown "ROLLBACK")
  else if my_state = 10 then Except.ok (ShardRole.Unknown "REMOVED")
  else Except.error (MongoErrorKind.UnsupportedSateId my_state)

/-- `Shard` as constructed by the instrumented path
(`Shard::new(name, role, commit_offset, lag)` with both offset fields
`Option<CommitOffset>`, common.rs line 119). -/
structure Shard where
  name : String
  role : ShardRole
  commit_offset : Option CommitOffset
  lag : Option CommitOffset
deriving DecidableEq, Repr

/-- The pure core of `CommonLogic::shards` from
src/mongodb/src/version/v3_2/common.rs (lines 103-121): the
`replSetGetStatus` response is the explicit input, the result is the
`Shards` list. A `Primary` reports `lag = None`; any other role reports
`Some(CommitOffset::seconds(head - last_op))` or `None` when the primary
optime cannot be computed (the error is only logged). -/
def shards (status : ReplSetStatus) : Except MongoErrorKind (List Shard) :=
  match last_op status with
  | Except.error e => Except.error e
  | Except.ok lastOp =>
    match role status.my_state with
    | Except.error e => Except.error e
    | Except.ok role =>
      let lag : Option CommitOffset :=
        match role with
        | ShardRole.Primary => none
        | _ =>
          match primary_optime status with
          | Except.ok head => some (CommitOffset.seconds (head - lastOp))
          | Except.error _ => none
      Except.ok [{ name := status.set, role := role
                   commit_offset := some (CommitOffset.seconds lastOp), lag := lag }]

end ModelsV32

/- ------------------------------------------------------------------ -/
/- src/agents/zookeeper/src/zk4lw/srvr.rs                              -/
/- ------------------------------------------------------------------ -/

/-- The whitespace predicate of the Rust `str::trim` (`char::is_whitespace`,
the Unicode White_Space property). -/
def rustIsWhitespace (c : Char) : Bool :=
  c = ' ' || c = '\t' || c = '\n' || c = '\x0b' || c = '\x0c' || c = '\r' ||
  c.val = 0x85 || c.val = 0xA0 || c.val = 0x1680 ||
  (0x2000 ≤ c.val && c.val ≤ 0x200A) ||
  c.val = 0x2028 || c.val = 0x2029 || c.val = 0x202F || c.val = 0x205F || c.val = 0x3000

/-- Rust `str::trim`: strip leading and trailing whitespace. -/
def rustTrim (l : List Char) : List Char :=
  ((l.dropWhile rustIsWhitespace).reverse.dropWhile rustIsWhitespace).reverse

/-- Drop one trailing carriage return, as the Rust `str::lines` does on each
line. -/
def stripCR (l : List Char) : List Char :=
  match l.reverse with
  | '\r' :: rest => rest.reverse
  | _ => l

/-- Recursion for `rustLines`: split the remaining characters at each
newline; a trailing newline produces no final empty line. -/
def linesAux : List Char → List Char → List (List Char)
  | [], acc => [stripCR acc.reverse]
  | c :: rest, acc =>
    if c = '\n' then
      stripCR acc.reverse ::
        (match rest with
         | [] => []
         | _ => linesAux rest [])
    else linesAux rest (c :: acc)

/-- Rust `str::lines` on a character list: split at newlines, strip one
trailing `\r` from each line, yield nothing for the empty string, and do not
yield a final empty line after a trailing newline. -/
def rustLines (cs : List Char) : List (List Char) :=
  match cs with
  | [] => []
  | _ => linesAux cs []

/-- Rust `line.splitn(2, ':')` followed by two `iter.next()` calls: the first
element is the text before the first colon (the whole line when there is no
colon), the second is `some` remainder after that colon or `none` when the
line has no colon. -/
def splitn2Colon (l : List Char) : List Char × Option (List Char) :=
  match l with
  | [] => ([], none)
  | c :: rest =>
    if c = ':' then ([], some rest)
    else
      let (front, back) := splitn2Colon rest
      (c :: front, back)

/-- Rust byte slicing `&value[2..]` on a UTF-8 string, modelled on the char
list: `none` means the slice panics (the string is shorter than two bytes, or
byte index 2 falls inside a multi-byte character); otherwise the characters
from byte offset 2 onwards. -/
def byteSliceFrom2 (l : List Char) : Option (List Char) :=
  match l with
  | [] => none
  | c :: rest =>
    if c.utf8Size = 1 then
      match rest with
      | [] => none
      | d :: rest2 => if d.utf8Size = 1 then some rest2 else none
    else if c.utf8Size = 2 then some rest
    else none

/-- The value of one hexadecimal digit, as accepted by Rust
`i64::from_str_radix(_, 16)`. -/
def hexDigitVal (c : Char) : Option Nat :=
  if '0' ≤ c ∧ c ≤ '9' then some (c.toNat - '0'.toNat)
  else if 'a' ≤ c ∧ c ≤ 'f' then some (c.toNat - 'a'.toNat + 10)
  else if 'A' ≤ c ∧ c ≤ 'F' then some (c.toNat - 'A'.toNat + 10)
  else none

/-- Accumulate hex digits into a natural number; `none` on any non-digit. -/
def hexDigitsVal : List Char → Nat → Option Nat
  | [], acc => some acc
  | c :: rest, acc =>
    match hexDigitVal c with
    | none => none
    | some d => hexDigitsVal rest (acc * 16 + d)

/-- Rust `i64::from_str_radix(s, 16)`: an optional sign, then one or more hex
digits, and the resulting value must fit in an i64; `none` models `Err`
(empty digits, invalid digit, or overflow). -/
def i64FromStrRadix16 (l : List Char) : Option Int :=
  let (neg, digits) :=
    match l with
    | '+' :: rest => (false, rest)
    | '-' :: rest => (true, rest)
    | _ => (false, l)
  match digits with
  | [] => none
  | _ =>
    match hexDigitsVal digits 0 with
    | none => none
    | some n =>
      if neg then
        if n ≤ 2 ^ 63 then some (-(Int.ofNat n)) else none
      else
        if n ≤ 2 ^ 63 - 1 then some (Int.ofNat n) else none

/-- `zk_4lw::Error` from the external `zk_4lw` dependency, as used by the
repository: `MissingField` with a static field name for absent fields, and a parse-error
variant produced by the `?` conversion from `std::num::ParseIntError`. -/
inductive ZkError where
  | MissingField (field : String) : ZkError
  | IntParse : ZkError
deriving DecidableEq, Repr

/-- `Response` from src/agents/zookeeper/src/zk4lw/srvr.rs (lines 57-63);
`zk_extras` is a `HashMap<String, String>` modelled as an association list. -/
structure SrvrResponse where
  zk_mode : List Char
  zk_version : List Char
  zk_zxid : Int
  zk_extras : List (List Char × List Char)
deriving DecidableEq, Repr

/-- Accumulator for the parsing loop of `Srvr::parse_response`: the four
mutable locals declared at src/agents/zookeeper/src/zk4lw/srvr.rs
lines 17-20. -/
structure SrvrAcc where
  zk_mode : Option (List Char)
  zk_version : Option (List Char)
  zk_zxid : Option Int
  zk_extras : List (List Char × List Char)
deriving DecidableEq, Repr

/-- `HashMap::insert`: replace the value when the key exists, append
otherwise. -/
def insertExtra : List (List Char × List Char) → List Char → List Char →
    List (List Char × List Char)
  | [], k, v => [(k, v)]
  | (k', v') :: rest, k, v =>
    if k' = k then (k, v) :: rest else (k', v') :: insertExtra rest k v

/-- Outcome of running `Srvr::parse_response`, with the implicit panic of the
`&value[2..]` byte slice made explicit. -/
inductive ParseOutcome where
  | panics : ParseOutcome
  | ok (r : SrvrResponse) : ParseOutcome
  | err (e : ZkError) : ParseOutcome
deriving DecidableEq, Repr

/-- Outcome of the `for line in lines` loop of `Srvr::parse_response`. -/
inductive SrvrLoopResult where
  | panicked : SrvrLoopResult
  | failed (e : ZkError) : SrvrLoopResult
  | done (acc : SrvrAcc) : SrvrLoopResult
deriving DecidableEq, Repr

/-- The `for line in lines` loop of `Srvr::parse_response`
(src/agents/zookeeper/src/zk4lw/srvr.rs lines 22-36): split each line at the
first colon, trim both halves, dispatch on the key; a line without a colon
breaks out of the loop; a `Zxid` value goes through `&value[2..]` (panic when
shorter than two bytes) and `i64::from_str_radix(_, 16)` (early `Err` return
on parse failure). -/
def srvrLoop : List (List Char) → SrvrAcc → SrvrLoopResult
  | [], acc => SrvrLoopResult.done acc
  | line :: rest, acc =>
    match splitn2Colon line with
    | (_, none) => SrvrLoopResult.done acc
    | (k, some v) =>
      let key := rustTrim k
      let value := rustTrim v
      if key = "Mode".data then
        srvrLoop rest { acc with zk_mode := some value }
      else if key = "Zxid".data then
        match byteSliceFrom2 value with
        | none => SrvrLoopResult.panicked
        | some tail =>
          match i64FromStrRadix16 tail with
          | none => SrvrLoopResult.failed ZkError.IntParse
          | some z => srvrLoop rest { acc with zk_zxid := some z }
      else if key = "Zookeeper version".data then
        srvrLoop rest { acc with zk_version := some value }
      else
        srvrLoop rest { acc with zk_extras := insertExtra acc.zk_extras key value }

/-- `Srvr::parse_response` from src/agents/zookeeper/src/zk4lw/srvr.rs
(lines 16-55): run the line loop from empty state, then check
`zk_mode`, `zk_version`, `zk_zxid` in that order, returning
`Error::MissingField` for the first one still unset. -/
def parse_response (response : List Char) : ParseOutcome :=
  match srvrLoop (rustLines response) ⟨none, none, none, []⟩ with
  | SrvrLoopResult.panicked => ParseOutcome.panics
  | SrvrLoopResult.failed e => ParseOutcome.err e
  | SrvrLoopResult.done acc =>
    match acc.zk_mode with
    | none => ParseOutcome.err (ZkError.MissingField "zk_mode")
    | some mode =>
      match acc.zk_version with
      | none => ParseOutcome.err (ZkError.MissingField "zk_version")
      | some ver =>
        match acc.zk_zxid with
        | none => ParseOutcome.err (ZkError.MissingField "zk_zxid")
        | some zxid =>
          ParseOutcome.ok { zk_mode := mode, zk_version := ver
                            zk_zxid := zxid, zk_extras := acc.zk_extras }

/-- The (trimmed key, trimmed value) pairs the parse loop actually processes:
lines up to, but not including, the first line without a colon. -/
def parsedPairsAux : List (List Char) → List (List Char × List Char)
  | [] => []
  | line :: rest =>
    match splitn2Colon line with
    | (_, none) => []
    | (k, some v) => (rustTrim k, rustTrim v) :: parsedPairsAux rest

/-- The (trimmed key, trimmed value) pairs processed when parsing a
response. -/
def parsedPairs (response : List Char) : List (List Char × List Char) :=
  parsedPairsAux (rustLines response)

/-- A `Zxid` value survives `&value[2..]` and `i64::from_str_radix(_, 16)`. -/
def zxidOk (v : List Char) : Bool :=
  match byteSliceFrom2 v with
  | none => false
  | some tail => (i64FromStrRadix16 tail).isSome

/-- Every `Zxid` pair the loop processes has a value of at least two bytes
that parses as an i64 hex number. -/
def goodZxids (response : List Char) : Prop :=
  ∀ p ∈ parsedPairs response, p.1 = "Zxid".data → zxidOk p.2 = true

instance : DecidablePred goodZxids := fun response =>
  List.decidableBAll _ (parsedPairs response)

/- ================================================================== -/
/- Theorems                                                            -/
/- ================================================================== -/

/-- C1: for every args value accepted by a validator, constructing a new
action record with `ActionRecord::new` yields a record carrying exactly the
supplied args, in state `New`, with no state payload and empty headers, so
reading the stored record back returns the args unchanged. -/
theorem c1_new_record_initial_fields (validate : Json → ActionValidity)
    (kind : String) (args : Json) (requester : ActionRequester)
    (agentVersion : String) (now : Nat) (freshId : Uuid)
    (hacc : validate args = Except.ok ()) :
    (ActionRecord.new kind args requester agentVersion now freshId).args = args ∧
    (ActionRecord.new kind args requester agentVersion now freshId).state = ActionState.New ∧
    (ActionRecord.new kind args requester agentVersion now freshId).state_payload = none ∧
    (ActionRecord.new kind args requester agentVersion now freshId).headers = [] :=
  ⟨rfl, rfl, rfl, rfl⟩

/-- Witness for C1 at a concrete accepted (kind, args) pair. -/
theorem c1_new_record_initial_fields_witness :
    ((fun _ : Json => (Except.ok () : ActionValidity)) (Json.str "all") = Except.ok ()) ∧
    ((ActionRecord.new "agent.restart" (Json.str "all") ActionRequester.Api "0.1.0" 7
        ⟨42⟩).args = Json.str "all" ∧
     (ActionRecord.new "agent.restart" (Json.str "all") ActionRequester.Api "0.1.0" 7
        ⟨42⟩).state = ActionState.New ∧
     (ActionRecord.new "agent.restart" (Json.str "all") ActionRequester.Api "0.1.0" 7
        ⟨42⟩).state_payload = none ∧
     (ActionRecord.new "agent.restart" (Json.str "all") ActionRequester.Api "0.1.0" 7
        ⟨42⟩).headers = []) :=
  ⟨rfl, c1_new_record_initial_fields (fun _ => Except.ok ()) "agent.restart"
    (Json.str "all") ActionRequester.Api "0.1.0" 7 ⟨42⟩ rfl⟩

/-- C2: the action state model has exactly the three stages New, Running and
Failed (no Done stage exists in the type), and `is_finished` is true exactly
on Failed. -/
theorem c2_state_model_closed (s : ActionState) :
    (s = ActionState.New ∨ s = ActionState.Running ∨ s = ActionState.Failed) ∧
    (s.is_finished = true ↔ s = ActionState.Failed) := by
  cases s <;> simp [ActionState.is_finished]

/-- C3 counterexample: `ErrorKind::http_status` does not return a 5xx status
for every variant — `ActionAlreadyExists` maps to 409 (Conflict). -/
theorem c3_counterexample :
    ErrorKind.http_status (ErrorKind.ActionAlreadyExists "a") = 409 ∧
    ¬(500 ≤ ErrorKind.http_status (ErrorKind.ActionAlreadyExists "a") ∧
      ErrorKind.http_status (ErrorKind.ActionAlreadyExists "a") ≤ 599) := by
  decide

/-- C3 amended: every `ErrorKind` variant carries a non-empty machine-readable
kind name, and every variant other than `ActionAlreadyExists` (409),
`ActionEncode` (400) and `ActionNotAvailable` (400) maps to the server-class
status 500. -/
theorem c3_amended_status_and_kind (k : ErrorKind) :
    (∃ n, k.kind_name = some n ∧ n ≠ "") ∧
    (((∀ s, k ≠ ErrorKind.ActionAlreadyExists s) ∧ k ≠ ErrorKind.ActionEncode ∧
      (∀ s, k ≠ ErrorKind.ActionNotAvailable s)) → k.http_status = 500) ∧
    (∀ s, (ErrorKind.ActionAlreadyExists s).http_status = 409) ∧
    ErrorKind.ActionEncode.http_status = 400 ∧
    (∀ s, (ErrorKind.ActionNotAvailable s).http_status = 400) := by
  refine ⟨?_, ?_, fun _ => rfl, rfl, fun _ => rfl⟩
  · cases k <;> exact ⟨_, rfl, by simp⟩
  · rintro ⟨h1, h2, h3⟩
    cases k
    case ActionAlreadyExists id => exact absurd rfl (h1 id)
    case ActionEncode => exact absurd rfl h2
    case ActionNotAvailable s => exact absurd rfl (h3 s)
    all_goals rfl

/-- Witness for the amended C3 at the concrete variant `ConfigLoad`. -/
theorem c3_amended_status_and_kind_witness :
    ErrorKind.ConfigLoad.http_status = 500 :=
  (c3_amended_status_and_kind ErrorKind.ConfigLoad).2.1
    ⟨fun _ h => ErrorKind.noConfusion h, fun h => ErrorKind.noConfusion h,
     fun _ h => ErrorKind.noConfusion h⟩

/-- C4: the registered range ">=3.0.0, <3.2.0" contains 3.1.4 but not 3.2.0
or 2.9.9; with the second range ">=3.2.0, <4.0.0" exactly the first matches
3.1.4, and no version is contained in both ranges. -/
theorem c4_version_range_selection :
    REPLICA_SET_RANGE.matches ⟨3, 1, 4⟩ = true ∧
    REPLICA_SET_RANGE.matches ⟨3, 2, 0⟩ = false ∧
    REPLICA_SET_RANGE.matches ⟨2, 9, 9⟩ = false ∧
    NEXT_VERSION_RANGE.matches ⟨3, 1, 4⟩ = false ∧
    (∀ v : SemVersion,
      ¬(REPLICA_SET_RANGE.matches v = true ∧ NEXT_VERSION_RANGE.matches v = true)) := by
  refine ⟨by decide, by decide, by decide, by decide, ?_⟩
  intro v
  simp only [VersionReq.matches, REPLICA_SET_RANGE, NEXT_VERSION_RANGE,
    Bool.and_eq_true, Bool.not_eq_true']
  rintro ⟨⟨_, hu⟩, ⟨hl, _⟩⟩
  exact Bool.noConfusion (hu.symm.trans hl)

/-- Witness for the universally quantified disjointness of C4 at version 3.5.0. -/
theorem c4_version_range_selection_witness :
    ¬(REPLICA_SET_RANGE.matches ⟨3, 5, 0⟩ = true ∧
      NEXT_VERSION_RANGE.matches ⟨3, 5, 0⟩ = true) :=
  c4_version_range_selection.2.2.2.2 ⟨3, 5, 0⟩

/-- C5 counterexample: the `ExternalActionCheckDecode` failure (decoding the
captured output of an external action check) carries only the action id,
not the captured standard-out and standard-error text. -/
theorem c5_counterexample :
    ErrorKind.isExternalAction (ErrorKind.ExternalActionCheckDecode ⟨0⟩) = true ∧
    ErrorKind.capturedOutput (ErrorKind.ExternalActionCheckDecode ⟨0⟩) = none :=
  ⟨rfl, rfl⟩

/-- C5 amended: among the external-action failure variants, exactly
`ExternalActionCheckResult` and `ExternalActionExec` carry the captured
standard-out/standard-error text; the start, check and check-decode failures
carry identifiers only. -/
theorem c5_amended_captured_output (k : ErrorKind)
    (hext : k.isExternalAction = true) :
    k.capturedOutput ≠ none ↔
      ((∃ id stdout stderr, k = ErrorKind.ExternalActionCheckResult id stdout stderr) ∨
       (∃ id stdout stderr, k = ErrorKind.ExternalActionExec id stdout stderr)) := by
  cases k <;> simp_all [ErrorKind.isExternalAction, ErrorKind.capturedOutput]

/-- Witness for the amended C5 at a concrete exec failure. -/
theorem c5_amended_captured_output_witness :
    ErrorKind.isExternalAction (ErrorKind.ExternalActionExec ⟨0⟩ "out" "err") = true ∧
    ErrorKind.capturedOutput (ErrorKind.ExternalActionExec ⟨0⟩ "out" "err") ≠ none :=
  ⟨rfl, (c5_amended_captured_output (ErrorKind.ExternalActionExec ⟨0⟩ "out" "err")
    rfl).mpr (Or.inr ⟨⟨0⟩, "out", "err", rfl⟩)⟩

/-- C7: every validation failure maps to HTTP 400 with a structured body
carrying the kind label "InvalidArgs" and the message
"invalid action arguments: <reason>". -/
theorem c7_invalid_args_client_error (reason : String) :
    (ActionValidityError.InvalidArgs reason).http_status = 400 ∧
    (ActionValidityError.InvalidArgs reason).error_response =
      { status := 400
        body := [("error", "invalid action arguments: " ++ reason),
                 ("kind", "InvalidArgs")] } :=
  ⟨rfl, rfl⟩

/-- C10: the default bind address is "127.0.0.1:8000" before any override, is
the supplied value after exactly one `set_default_bind`, and a second
`set_default_bind` panics instead of replacing the stored default. -/
theorem c10_set_once_default_bind (b b' : String) :
    APIConfig.default_bind (none : DefaultBindState) = "127.0.0.1:8000" ∧
    APIConfig.set_default_bind (none : DefaultBindState) b = Except.ok (some b) ∧
    APIConfig.default_bind (some b : DefaultBindState) = b ∧
    APIConfig.set_default_bind (some b : DefaultBindState) b' =
      Except.error "Cannot override the default api.bind option more than once" :=
  ⟨rfl, rfl, rfl, rfl⟩

/-- C8: both `ReplSetStatus::role` implementations map `my_state` 1 to
Primary, 2 to Secondary, exactly {0, 3, 5, 6, 7, 8, 9, 10} to Unknown, and
every other value (including 4 and negatives) to an error; the two parallel
implementations agree on every successful outcome. -/
theorem c8_role_mapping (s : Int) :
    (LegacyV32.role s = Except.ok ShardRole.Primary ↔ s = 1) ∧
    (ModelsV32.role s = Except.ok ShardRole.Primary ↔ s = 1) ∧
    (LegacyV32.role s = Except.ok ShardRole.Secondary ↔ s = 2) ∧
    (ModelsV32.role s = Except.ok ShardRole.Secondary ↔ s = 2) ∧
    ((∃ n, LegacyV32.role s = Except.ok (ShardRole.Unknown n)) ↔
      (s = 0 ∨ s = 3 ∨ s = 5 ∨ s = 6 ∨ s = 7 ∨ s = 8 ∨ s = 9 ∨ s = 10)) ∧
    ((∃ e, LegacyV32.role s = Except.error e) ↔
      ¬(s = 0 ∨ s = 1 ∨ s = 2 ∨ s = 3 ∨ s = 5 ∨ s = 6 ∨ s = 7 ∨ s = 8 ∨
        s = 9 ∨ s = 10)) ∧
    ((∃ e, ModelsV32.role s = Except.error e) ↔
      ¬(s = 0 ∨ s = 1 ∨ s = 2 ∨ s = 3 ∨ s = 5 ∨ s = 6 ∨ s = 7 ∨ s = 8 ∨
        s = 9 ∨ s = 10)) ∧
    (∀ r, LegacyV32.role s = Except.ok r ↔ ModelsV32.role s = Except.ok r) := by
  by_cases h0 : s = 0
  · subst h0; simp [LegacyV32.role, ModelsV32.role]
  by_cases h1 : s = 1
  · subst h1; simp [LegacyV32.role, ModelsV32.role]
  by_cases h2 : s = 2
  · subst h2; simp [LegacyV32.role, ModelsV32.role]
  by_cases h3 : s = 3
  · subst h3; simp [LegacyV32.role, ModelsV32.role]
  by_cases h5 : s = 5
  · subst h5; simp [LegacyV32.role, ModelsV32.role]
  by_cases h6 : s = 6
  · subst h6; simp [LegacyV32.role, ModelsV32.role]
  by_cases h7 : s = 7
  · subst h7; simp [LegacyV32.role, ModelsV32.role]
  by_cases h8 : s = 8
  · subst h8; simp [LegacyV32.role, ModelsV32.role]
  by_cases h9 : s = 9
  · subst h9; simp [LegacyV32.role, ModelsV32.role]
  by_cases h10 : s = 10
  · subst h10; simp [LegacyV32.role, ModelsV32.role]
  simp [LegacyV32.role, ModelsV32.role, h0, h1, h2, h3, h5, h6, h7, h8, h9, h10]

/-- The two `last_op` loops succeed and fail on the same inputs with the same
value (they differ only in the error representation). -/
theorem lastOpAux_agree (ms : List ReplSetStatusMember) :
    (LegacyV32.lastOpAux ms).toOption = (ModelsV32.lastOpAux ms).toOption := by
  induction ms with
  | nil => rfl
  | cons m rest ih =>
    simp only [LegacyV32.lastOpAux, ModelsV32.lastOpAux]
    split_ifs <;> [rfl; exact ih]

/-- The two `primary_optime` loops succeed and fail on the same inputs with
the same value. -/
theorem primaryOptimeAux_agree (ms : List ReplSetStatusMember) :
    (LegacyV32.primaryOptimeAux ms).toOption = (ModelsV32.primaryOptimeAux ms).toOption := by
  induction ms with
  | nil => rfl
  | cons m rest ih =>
    simp only [LegacyV32.primaryOptimeAux, ModelsV32.primaryOptimeAux]
    split_ifs <;> [rfl; exact ih]

/-- A successful `Except` transported along `toOption` agreement. -/
theorem except_toOption_ok {E E' A : Type} {x : Except E A} {y : Except E' A}
    {v : A} (h : x.toOption = y.toOption) (hx : x = Except.ok v) :
    y = Except.ok v := by
  subst hx
  cases y with
  | ok w =>
    simp only [Except.toOption, Option.some.injEq] at h
    exact congrArg Except.ok h.symm
  | error e => simp [Except.toOption] at h

/-- A failing `Except` transported along `toOption` agreement. -/
theorem except_toOption_error {E E' A : Type} {x : Except E A} {y : Except E' A}
    {e : E} (h : x.toOption = y.toOption) (hx : x = Except.error e) :
    ∃ e', y = Except.error e' := by
  subst hx
  cases y with
  | ok w => simp [Except.toOption] at h
  | error e' => exact ⟨e', rfl⟩

/-- C6 counterexample: on a primary node (`my_state = 1`, the single member is
self with state 1), the legacy `ReplicaSet::shards` reports lag `Some(0)`
while the instrumented `CommonLogic::shards` reports lag `None`, so the two
parallel implementations are not observably equivalent on the lag of a
Primary shard. -/
theorem c6_counterexample :
    LegacyV32.shards ⟨[⟨true, "host0", ⟨⟨5⟩⟩, 1⟩], 1, "rs0"⟩ =
      Except.ok [{ name := "rs0", role := ShardRole.Primary, lag := some 0,
                   last_op := 5 }] ∧
    ModelsV32.shards ⟨[⟨true, "host0", ⟨⟨5⟩⟩, 1⟩], 1, "rs0"⟩ =
      Except.ok [{ name := "rs0", role := ShardRole.Primary
                   commit_offset := some (CommitOffset.seconds 5), lag := none }] ∧
    (some 0 : Option Int) ≠
      Option.map CommitOffset.secondsValue (none : Option CommitOffset) := by
  refine ⟨rfl, rfl, by simp⟩

/-- C6 amended: whenever both parallel shard extractions succeed, each returns
exactly one shard with the same set name and the same role; the lag agrees
(in seconds) whenever the role is not Primary, while for a Primary the legacy
path reports `Some(0)` and the instrumented path reports `None`. -/
theorem c6_amended_shards_agree (st : ReplSetStatus)
    (ls : List LegacyV32.Shard) (cs : List ModelsV32.Shard)
    (hl : LegacyV32.shards st = Except.ok ls)
    (hc : ModelsV32.shards st = Except.ok cs) :
    ∃ l c, ls = [l] ∧ cs = [c] ∧ l.name = c.name ∧ l.role = c.role ∧
      (l.role ≠ ShardRole.Primary →
        l.lag = Option.map CommitOffset.secondsValue c.lag) ∧
      (l.role = ShardRole.Primary → l.lag = some 0 ∧ c.lag = none) := by
  unfold LegacyV32.shards at hl
  unfold ModelsV32.shards at hc
  cases hlo : LegacyV32.last_op st with
  | error e => rw [hlo] at hl; exact absurd hl (by simp)
  | ok lastOp =>
    rw [hlo] at hl
    have hlo' : ModelsV32.last_op st = Except.ok lastOp :=
      except_toOption_ok (lastOpAux_agree st.members) hlo
    rw [hlo'] at hc
    cases hr : LegacyV32.role st.my_state with
    | error e => rw [hr] at hl; exact absurd hl (by simp)
    | ok role =>
      rw [hr] at hl
      have hr' : ModelsV32.role st.my_state = Except.ok role :=
        ((c8_role_mapping st.my_state).2.2.2.2.2.2.2 role).mp hr
      rw [hr'] at hc
      simp only [Except.ok.injEq] at hl hc
      refine ⟨_, _, hl.symm, hc.symm, rfl, rfl, ?_, ?_⟩
      · intro hnp
        cases role with
        | Primary => exact absurd rfl hnp
        | Secondary =>
          cases hpo : LegacyV32.primaryOptimeAux st.members with
          | ok head =>
            have hpo' : ModelsV32.primaryOptimeAux st.members = Except.ok head :=
              except_toOption_ok (primaryOptimeAux_agree st.members) hpo
            simp [LegacyV32.primary_optime, ModelsV32.primary_optime, hpo, hpo',
              CommitOffset.secondsValue]
          | error e =>
            obtain ⟨e', hpo'⟩ :=
              except_toOption_error (primaryOptimeAux_agree st.members) hpo
            simp [LegacyV32.primary_optime, ModelsV32.primary_optime, hpo, hpo']
        | Unknown n =>
          cases hpo : LegacyV32.primaryOptimeAux st.members with
          | ok head =>
            have hpo' : ModelsV32.primaryOptimeAux st.members = Except.ok head :=
              except_toOption_ok (primaryOptimeAux_agree st.members) hpo
            simp [LegacyV32.primary_optime, ModelsV32.primary_optime, hpo, hpo',
              CommitOffset.secondsValue]
          | error e =>
            obtain ⟨e', hpo'⟩ :=
              except_toOption_error (primaryOptimeAux_agree st.members) hpo
            simp [LegacyV32.primary_optime, ModelsV32.primary_optime, hpo, hpo']
      · intro hp
        subst hp
        exact ⟨rfl, rfl⟩

/-- Witness for the amended C6 at a concrete two-member secondary status. -/
theorem c6_amended_shards_agree_witness :
    ∃ (l : LegacyV32.Shard) (c : ModelsV32.Shard),
      ([{ name := "rs0", role := ShardRole.Secondary, lag := some 2,
          last_op := 3 }] : List LegacyV32.Shard) = [l] ∧
      ([{ name := "rs0", role := ShardRole.Secondary
          commit_offset := some (CommitOffset.seconds 3)
          lag := some (CommitOffset.seconds 2) }] : List ModelsV32.Shard) = [c] ∧
      l.name = c.name ∧ l.role = c.role ∧
      (l.role ≠ ShardRole.Primary →
        l.lag = Option.map CommitOffset.secondsValue c.lag) ∧
      (l.role = ShardRole.Primary → l.lag = some 0 ∧ c.lag = none) :=
  c6_amended_shards_agree
    ⟨[⟨true, "h0", ⟨⟨3⟩⟩, 2⟩, ⟨false, "h1", ⟨⟨5⟩⟩, 1⟩], 2, "rs0"⟩
    _ _ rfl rfl

/-- The three field keys recognised by the parse loop are pairwise distinct. -/
theorem srvr_keys_distinct :
    "Mode".data ≠ "Zxid".data ∧ "Mode".data ≠ "Zookeeper version".data ∧
    "Zxid".data ≠ "Zookeeper version".data := by
  decide

/-- Characterisation of the `srvr` parse loop: when every processed `Zxid`
value survives slicing and hex parsing, the loop terminates normally and each
of the three tracked fields ends up unset exactly when it was unset initially
and its key never occurs among the processed pairs. -/
theorem srvrLoop_characterised (lines : List (List Char)) :
    ∀ acc : SrvrAcc,
      (∀ p ∈ parsedPairsAux lines, p.1 = "Zxid".data → zxidOk p.2 = true) →
      ∃ acc', srvrLoop lines acc = SrvrLoopResult.done acc' ∧
        (acc'.zk_mode = none ↔
          (acc.zk_mode = none ∧
            "Mode".data ∉ (parsedPairsAux lines).map Prod.fst)) ∧
        (acc'.zk_version = none ↔
          (acc.zk_version = none ∧
            "Zookeeper version".data ∉ (parsedPairsAux lines).map Prod.fst)) ∧
        (acc'.zk_zxid = none ↔
          (acc.zk_zxid = none ∧
            "Zxid".data ∉ (parsedPairsAux lines).map Prod.fst)) := by
  induction lines with
  | nil =>
    intro acc _
    exact ⟨acc, rfl, by simp [parsedPairsAux], by simp [parsedPairsAux],
      by simp [parsedPairsAux]⟩
  | cons line rest ih =>
    intro acc h
    rcases hsp : splitn2Colon line with ⟨k, vOpt⟩
    cases vOpt with
    | none =>
      refine ⟨acc, ?_, ?_, ?_, ?_⟩
      · simp [srvrLoop, hsp]
      all_goals simp [parsedPairsAux, hsp]
    | some v =>
      have hpp : parsedPairsAux (line :: rest) =
          (rustTrim k, rustTrim v) :: parsedPairsAux rest := by
        simp [parsedPairsAux, hsp]
      have hrest : ∀ p ∈ parsedPairsAux rest, p.1 = "Zxid".data →
          zxidOk p.2 = true := by
        intro p hp hzx
        exact h p (by rw [hpp]; exact List.mem_cons_of_mem _ hp) hzx
      have hneMZ : "Mode".data ≠ "Zxid".data := srvr_keys_distinct.1
      have hneMV : "Mode".data ≠ "Zookeeper version".data := srvr_keys_distinct.2.1
      have hneZV : "Zxid".data ≠ "Zookeeper version".data := srvr_keys_distinct.2.2
      by_cases hMode : rustTrim k = "Mode".data
      · obtain ⟨acc', hrun, hm, hv, hz⟩ := ih { acc with zk_mode := some (rustTrim v) } hrest
        refine ⟨acc', ?_, ?_, ?_, ?_⟩
        · simp [srvrLoop, hsp, hMode, hrun]
        · rw [hpp]; simp [hm, hMode, List.mem_cons]
        · rw [hpp]; simp [hv, hMode, List.mem_cons, hneMV.symm]
        · rw [hpp]; simp [hz, hMode, List.mem_cons, hneMZ.symm]
      · by_cases hZxid : rustTrim k = "Zxid".data
        · have hok : zxidOk (rustTrim v) = true :=
            h (rustTrim k, rustTrim v) (by rw [hpp]; exact List.mem_cons_self _ _) hZxid
          unfold zxidOk at hok
          cases hbs : byteSliceFrom2 (rustTrim v) with
          | none => simp [hbs] at hok
          | some tail =>
            have hok' : (i64FromStrRadix16 tail).isSome = true := by
              simpa [hbs] using hok
            cases hrad : i64FromStrRadix16 tail with
            | none => simp [hrad] at hok'
            | some z =>
              obtain ⟨acc', hrun, hm, hv, hz⟩ := ih { acc with zk_zxid := some z } hrest
              refine ⟨acc', ?_, ?_, ?_, ?_⟩
              · simp [srvrLoop, hsp, hMode, hZxid, hbs, hrad, hrun]
              · rw [hpp]; simp [hm, hZxid, List.mem_cons, hneMZ]
              · rw [hpp]; simp [hv, hZxid, List.mem_cons, hneZV.symm]
              · rw [hpp]; simp [hz, hZxid, List.mem_cons]
        · by_cases hZV : rustTrim k = "Zookeeper version".data
          · obtain ⟨acc', hrun, hm, hv, hz⟩ :=
              ih { acc with zk_version := some (rustTrim v) } hrest
            refine ⟨acc', ?_, ?_, ?_, ?_⟩
            · simp [srvrLoop, hsp, hMode, hZxid, hZV, hrun]
            · rw [hpp]; simp [hm, hZV, List.mem_cons, hneMV]
            · rw [hpp]; simp [hv, hZV, List.mem_cons]
            · rw [hpp]; simp [hz, hZV, List.mem_cons, hneZV]
          · obtain ⟨acc', hrun, hm, hv, hz⟩ :=
              ih { acc with
                    zk_extras := insertExtra acc.zk_extras (rustTrim k) (rustTrim v) } hrest
            have hMode' : ¬("Mode".data = rustTrim k) := fun hh => hMode hh.symm
            have hZxid' : ¬("Zxid".data = rustTrim k) := fun hh => hZxid hh.symm
            have hZV' : ¬("Zookeeper version".data = rustTrim k) := fun hh => hZV hh.symm
            refine ⟨acc', ?_, ?_, ?_, ?_⟩
            · simp [srvrLoop, hsp, hMode, hZxid, hZV, hrun]
            · rw [hpp]; simp [hm, List.mem_cons, hMode']
            · rw [hpp]; simp [hv, List.mem_cons, hZV']
            · rw [hpp]; simp [hz, List.mem_cons, hZxid']

/-- C9 counterexample: `Srvr::parse_response` is not total — on the input
"Zxid: 0" the byte slice `&value[2..]` panics because the trimmed value "0"
is shorter than two bytes. -/
theorem c9_counterexample :
    parse_response "Zxid: 0".data = ParseOutcome.panics := by
  decide

/-- C9 amended: on every input whose processed `Zxid` values are at least two
bytes long and parse as i64 hex after dropping the first two characters,
`parse_response` never panics, every error it returns is a `MissingField`
error, and it returns a `MissingField` error exactly when one of the keys
`Mode`, `Zookeeper version` or `Zxid` is absent from the processed lines. -/
theorem c9_amended_parse_characterised (response : List Char)
    (h : goodZxids response) :
    parse_response response ≠ ParseOutcome.panics ∧
    (∀ e, parse_response response = ParseOutcome.err e →
      ∃ f, e = ZkError.MissingField f) ∧
    ((∃ f, parse_response response = ParseOutcome.err (ZkError.MissingField f)) ↔
      ("Mode".data ∉ (parsedPairs response).map Prod.fst ∨
       "Zookeeper version".data ∉ (parsedPairs response).map Prod.fst ∨
       "Zxid".data ∉ (parsedPairs response).map Prod.fst)) := by
  obtain ⟨acc', hrun, hm, hv, hz⟩ :=
    srvrLoop_characterised (rustLines response) ⟨none, none, none, []⟩ h
  unfold parse_response
  rw [hrun]
  refine ⟨?_, ?_, ?_⟩ <;>
    rcases hmo : acc'.zk_mode with _ | mode <;>
    rcases hvo : acc'.zk_version with _ | ver <;>
    rcases hzo : acc'.zk_zxid with _ | zx <;>
    simp_all [parsedPairs]

/-- Witness for the amended C9 at a concrete well-formed response. -/
theorem c9_amended_parse_characterised_witness :
    parse_response "Mode: leader\nZookeeper version: 3.4\nZxid: 0x10".data ≠
      ParseOutcome.panics :=
  (c9_amended_parse_characterised
    "Mode: leader\nZookeeper version: 3.4\nZxid: 0x10".data (by decide)).1
